import Mathlib

/-
Shallow embedding of `src/cfg/get_config.py`: a layered configuration lookup
with three source adapters (environment variable, dotenv file, TOML file),
a shared file-based search strategy, a Rust-inspired `Result` container, and
the public dispatcher `get_config`.

Python objects are modelled explicitly:
 - `Val` is the type of configuration payloads, with Python truthiness.
 - `Exc` models a Python exception value (we carry its string form).
 - `PyResult` mirrors the two private fields `__ok` / `__err` of `Result`;
   `Option.none` in a field models the Python value `None`.
 - Error lists are heterogeneous in Python (they may hold `Exception`s or
   `Result`s), modelled by `ErrItem`.
 - Functions that may raise an exception that is NOT caught by the code under
   consideration return `Option`: `Option.none` models an uncaught exception
   propagating out (in particular the `RecursionError` produced by the
   self-recursive `Result.error`).
 - Unbounded recursion in Python (`Result.error` calling itself) is modelled
   with explicit fuel; Python's finite recursion limit means the call raises
   `RecursionError`, i.e. the model yields `Option.none` for every fuel.
The process environment and the filesystem are ambient inputs, modelled as
function parameters (`env : String → Option String` for `os.environ`,
`read : String → Except Exc PyMap` for the file-reading callbacks).
-/

set_option autoImplicit false

namespace Cfg

/-- A Python value that can appear as a configuration payload: a string, an
integer, or a mapping (as produced by `toml.load` / `dotenv.dotenv_values`). -/
inductive Val : Type where
  | str : String → Val
  | int : Int → Val
  | map : List (String × Val) → Val
  deriving Repr

/-- Python truthiness (`bool(v)`): empty string, zero and empty mapping are
falsy, everything else is truthy. -/
def Val.truthy : Val → Bool
  | .str s => !(s == "")
  | .int n => !(n == 0)
  | .map m => !m.isEmpty

/-- A Python exception value; we record only its string form `str(e)`, which
is all this program ever uses of it. -/
structure Exc : Type where
  msg : String
  deriving Repr, DecidableEq

/-- An element of a `Result` error list. In the Python source these lists hold
either raw `Exception`s (the env adapter stores `[e]` directly) or nested
`Result` objects (`__find_in_files` appends `Result.error(e)`), so the element
type is a tagged union. `res okField errField` carries the two private fields
of a nested `Result` object. -/
inductive ErrItem : Type where
  | exc : Exc → ErrItem
  | res : Option Val → Option (List ErrItem) → ErrItem
  deriving Repr

/-- The `Result` class: exactly its two private fields `__ok : T | None` and
`__err : list[E] | None`. `Option.none` models the Python value `None`. -/
structure PyResult : Type where
  ok : Option Val
  err : Option (List ErrItem)
  deriving Repr

/-- View a `PyResult` as an element of an error list (the Python object is
stored directly; our `ErrItem.res` carries its two fields). -/
def ErrItem.ofRes (r : PyResult) : ErrItem :=
  ErrItem.res r.ok r.err

namespace Result

/-- The branch of `Result.__init__` taken for `status = 'ok'`: store the
contents in `__ok` and set `__err = None`. -/
def initOk (contents : Option Val) : PyResult :=
  { ok := contents, err := Option.none }

/-- The branch of `Result.__init__` taken for `status = 'error'`: store the
contents in `__err` and set `__ok = None`. -/
def initError (contents : Option (List ErrItem)) : PyResult :=
  { ok := Option.none, err := contents }

/-- The classmethod `Result.ok(result) = cls('ok', result)`. -/
def mkOk (v : Val) : PyResult :=
  initOk (some v)

end Result

/-- The status tag `'ok'` / `'error'` of `status_and_value`. -/
inductive Status : Type where
  | ok : Status
  | error : Status
  deriving Repr, DecidableEq

/-- The second component returned by `status_and_value`: either the held
payload, the held error list, or the Python value `None` (when the field that
is returned is `None`). -/
inductive SVal : Type where
  | payload : Val → SVal
  | errors : List ErrItem → SVal
  | pyNone : SVal
  deriving Repr

/-- Convert the `__err` field to the value `status_and_value` returns in its
error branch (`self.__err`, which may be the Python `None`). -/
def SVal.ofErr : Option (List ErrItem) → SVal
  | some es => SVal.errors es
  | Option.none => SVal.pyNone

/-- `Result.status_and_value`: `if self.__ok: return 'ok', self.__ok else:
return 'error', self.__err`. Note the branch condition is the TRUTHINESS of
the payload, not the construction tag. -/
def PyResult.status_and_value : PyResult → Status × SVal
  | { ok := some v, err := e } =>
      if v.truthy then (Status.ok, SVal.payload v) else (Status.error, SVal.ofErr e)
  | { ok := Option.none, err := e } => (Status.error, SVal.ofErr e)

/-- `Result.is_ok`: `bool(self.__ok)` — truthiness of the payload. -/
def PyResult.is_ok : PyResult → Bool
  | { ok := some v, err := _ } => v.truthy
  | { ok := Option.none, err := _ } => false

/-- `Result.is_err`: `bool(self.__err)` — truthiness of the error list
(a Python list is truthy iff nonempty; `None` is falsy). -/
def PyResult.is_err : PyResult → Bool
  | { ok := _, err := some es } => !es.isEmpty
  | { ok := _, err := Option.none } => false

/-- The string form `str(error)` of an error-list element, as used by
`ConfigItemNotFound.__init__`. For an `Exception` it is its message; for a
`Result` object Python would print its default object representation, which we
abstract as a fixed marker (no claim depends on its exact text). -/
def ErrItem.toMessage : ErrItem → String
  | ErrItem.exc e => e.msg
  | ErrItem.res _ _ => "<cfg.get_config.Result object>"

/-- The message built by `ConfigItemNotFound.__init__` from the error list. -/
def cinfMessage (es : List ErrItem) : String :=
  "Config item not found due to the following errors:\n"
    ++ String.intercalate "\n" (es.map ErrItem.toMessage)

/-- Outcome of running `ConfigItemNotFound.__init__(err_result)`. The
constructor can itself raise: its `assert status == 'error'` fails on a
truthy-payload result, and the comprehension `[str(e) for e in errors]` raises
`TypeError` when `errors` is the Python `None`. -/
inductive CinfInit : Type where
  | constructed : String → CinfInit
  | assertFailed : CinfInit
  | typeError : CinfInit
  deriving Repr, DecidableEq

/-- `ConfigItemNotFound.__init__`: unpack `status_and_value`, assert the
status is `'error'`, then build the joined message from the error list.
The `(Status.error, SVal.payload _)` shape is never produced by
`status_and_value`; iterating a non-list there would also be a `TypeError`. -/
def ConfigItemNotFound_init (r : PyResult) : CinfInit :=
  match r.status_and_value with
  | (Status.ok, _) => CinfInit.assertFailed
  | (Status.error, SVal.pyNone) => CinfInit.typeError
  | (Status.error, SVal.errors es) => CinfInit.constructed (cinfMessage es)
  | (Status.error, SVal.payload _) => CinfInit.typeError

/-- One pass of the loop body of `Result.error(*errors)` over the variadic
arguments. `wrap e` models the nested call `Result.error(e)` made for each
`Exception` argument; if that nested call raises (models as `Option.none`),
the exception propagates. A `Result` argument only passes the
`isinstance` assertion — nothing is appended for it. -/
def resultErrorGo (wrap : Exc → Option PyResult) :
    List ErrItem → List ErrItem → Option (List ErrItem)
  | [], acc => some acc
  | ErrItem.exc e :: rest, acc =>
      match wrap e with
      | Option.none => Option.none
      | some r => resultErrorGo wrap rest (acc ++ [ErrItem.ofRes r])
  | ErrItem.res _ _ :: rest, acc => resultErrorGo wrap rest acc

/-- The classmethod `Result.error(*errors)`. For each `Exception` argument it
appends `Result.error(e)` — a recursive call with the SAME argument, so the
recursion never terminates in Python and raises `RecursionError`. The `fuel`
parameter bounds the modelled recursion depth (Python's recursion limit);
`Option.none` is the resulting uncaught `RecursionError`. -/
def Result.errorM : Nat → List ErrItem → Option PyResult
  | 0, _ => Option.none
  | fuel + 1, causes =>
      (resultErrorGo (fun e => Result.errorM fuel [ErrItem.exc e]) causes []).map
        (fun es => Result.initError (some es))

/-- The mapping returned by a file-reading callback (`toml.load` /
`dotenv.dotenv_values`): a Python dict, modelled as an association list with
first-occurrence lookup (`item in data` and `data[item]` both go through
`List.lookup`). -/
abbrev PyMap : Type := List (String × Val)

/-- `os.path.join(a, b)`. -/
def pathJoin (a b : String) : String :=
  a ++ "/" ++ b

/-- The two candidate full paths visited by `__find_in_files`, in order:
`<cwd>/config/<application>/<file_name>` then
`<home>/config/<application>/<file_name>`. -/
def candidate_paths (cwd home application file_name : String) : List String :=
  [pathJoin (pathJoin (pathJoin cwd "config") application) file_name,
   pathJoin (pathJoin (pathJoin home "config") application) file_name]

/-- The `for directory in directories` loop of `__find_in_files`, over the
precomputed full paths, carrying the `errors` accumulator. Reading a candidate
(`read full_path`) either yields a mapping or raises (`Except.error e`); a
raised exception is caught and the handler runs `errors.append(Result.error(e))`
— whose `Result.error(e)` call is itself modelled by `Result.errorM` and, if it
raises (`Option.none`), that exception propagates uncaught out of the loop.
When the loop exhausts the candidates it returns `Result('error', errors)`. -/
def findLoop (fuel : Nat) (read : String → Except Exc PyMap) (item : String) :
    List String → List ErrItem → Option PyResult
  | [], errors => some (Result.initError (some errors))
  | full_path :: rest, errors =>
      match read full_path with
      | Except.ok data =>
          match data.lookup item with
          | some v => some (Result.mkOk v)
          | Option.none => findLoop fuel read item rest errors
      | Except.error e =>
          match Result.errorM fuel [ErrItem.exc e] with
          | Option.none => Option.none
          | some r => findLoop fuel read item rest (errors ++ [ErrItem.ofRes r])

/-- `__find_in_files(application, section, item, home, make_file_name,
read_config_file)`. The current working directory (`os.getcwd()`) is ambient
process state, passed as the explicit parameter `cwd`; the filesystem behind
`read_config_file` is the function `read`. -/
def find_in_files (fuel : Nat) (cwd application sect item home : String)
    (make_file_name : String → String → String → String)
    (read_config_file : String → Except Exc PyMap) : Option PyResult :=
  findLoop fuel read_config_file item
    (candidate_paths cwd home application (make_file_name application sect item)) []

/-- The naming rule of `__get_config_from_toml`: `f'{sec}.toml'`. -/
def toml_file_name (_app sec _obj : String) : String :=
  sec ++ ".toml"

/-- `__get_config_from_toml`: `__find_in_files` with the TOML naming rule.
The TOML reader (`toml.load` over the opened file) is the ambient `read`. -/
def get_config_from_toml (fuel : Nat) (cwd application sect item home : String)
    (read : String → Except Exc PyMap) : Option PyResult :=
  find_in_files fuel cwd application sect item home toml_file_name read

/-- The first naming rule of `__get_config_from_dotenv`: `f'.env.{sec}'`. -/
def dotenv_section_file_name (_app sec _obj : String) : String :=
  ".env." ++ sec

/-- The fallback naming rule of `__get_config_from_dotenv`: `'.env'`. -/
def dotenv_generic_file_name (_app _sec _obj : String) : String :=
  ".env"

/-- `__get_config_from_dotenv`: first attempt `__find_in_files` with the
per-section name `.env.{sec}`; if `attempt_1.is_ok()` return it, otherwise
retry with the generic name `.env` and return that second result. If either
`__find_in_files` call raises internally (`Option.none`), the exception
propagates. -/
def get_config_from_dotenv (fuel : Nat) (cwd application sect item home : String)
    (read : String → Except Exc PyMap) : Option PyResult :=
  match find_in_files fuel cwd application sect item home dotenv_section_file_name read with
  | Option.none => Option.none
  | some attempt_1 =>
      if attempt_1.is_ok then some attempt_1
      else find_in_files fuel cwd application sect item home dotenv_generic_file_name read

/-- Python `str.upper()`, modelled character-wise over the string's character
list (ASCII case mapping, which is all the configuration names here use). -/
def pyUpper (s : String) : String :=
  String.mk (s.data.map Char.toUpper)

/-- The variable name synthesized by `__get_config_from_env`:
`f'{application.upper()}_{section.upper()}_{item.upper()}'`. -/
def env_variable_name (application sect item : String) : String :=
  pyUpper application ++ "_" ++ pyUpper sect ++ "_" ++ pyUpper item

/-- `__get_config_from_env`: look the synthesized name up in `os.environ`
(the ambient `env`). Present: `Result('ok', value)`. Absent: `os.environ[...]`
raises `KeyError`, caught and returned as `Result('error', [e])`. -/
def get_config_from_env (env : String → Option String)
    (application sect item : String) : PyResult :=
  match env (env_variable_name application sect item) with
  | some v => Result.initOk (some (Val.str v))
  | Option.none =>
      Result.initError (some [ErrItem.exc ⟨"KeyError: " ++ env_variable_name application sect item⟩])

/-- The three source identifiers of the `dispatch` table / `priority` list. -/
inductive Source : Type where
  | envVariable : Source
  | dotenvFile : Source
  | configFile : Source
  deriving Repr, DecidableEq

/-- The default priority used when `priority` is falsy:
`['env variable', '.env file', 'config file']`. -/
def defaultPriority : List Source :=
  [Source.envVariable, Source.dotenvFile, Source.configFile]

/-- Observable outcome of a `get_config` call. `returned` carries the value of
`result_value` handed back by `return` (the second component of
`status_and_value`); `returnedNone` is the implicit `None` returned when the
`for` loop exhausts the priority list; the `raised*` outcomes are the uncaught
exceptions that can leave `get_config`. -/
inductive GetConfigOutcome : Type where
  | returned : SVal → GetConfigOutcome
  | returnedNone : GetConfigOutcome
  | raisedNotFound : String → GetConfigOutcome
  | raisedAssert : GetConfigOutcome
  | raisedTypeError : GetConfigOutcome
  | raisedInternal : GetConfigOutcome
  deriving Repr

/-- The `for p in priority` loop of `get_config`, over an abstract adapter
table `d : Source → Option PyResult` (each adapter already closed over
`application`, `sect`, `item`, `home` and the ambient environment/filesystem;
`Option.none` models the adapter itself raising an uncaught exception). The
body either returns the value (tag `'ok'`) or raises `ConfigItemNotFound`
built from that same result — so the loop never reaches a second iteration. -/
def get_config_loop (d : Source → Option PyResult) : List Source → GetConfigOutcome
  | [] => GetConfigOutcome.returnedNone
  | p :: _rest =>
      match d p with
      | Option.none => GetConfigOutcome.raisedInternal
      | some result =>
          match result.status_and_value with
          | (Status.ok, result_value) => GetConfigOutcome.returned result_value
          | (Status.error, _) =>
              match ConfigItemNotFound_init result with
              | CinfInit.constructed msg => GetConfigOutcome.raisedNotFound msg
              | CinfInit.assertFailed => GetConfigOutcome.raisedAssert
              | CinfInit.typeError => GetConfigOutcome.raisedTypeError

/-- `get_config`: replace a falsy `priority` (absent, i.e. `None`, or the
empty list) by the default, then run the dispatch loop. -/
def get_config (d : Source → Option PyResult)
    (priority : Option (List Source)) : GetConfigOutcome :=
  get_config_loop d
    (match priority with
     | Option.none => defaultPriority
     | some l => if l.isEmpty then defaultPriority else l)

/-- Helper lemma: the nested call `Result.error(e)` made for a single
`Exception` argument never terminates — for every recursion budget it ends in
`RecursionError` (`Option.none`), because each unfolding makes the identical
call with one unit less fuel. -/
theorem errorM_exc_none (fuel : Nat) (e : Exc) :
    Result.errorM fuel [ErrItem.exc e] = Option.none := by
  induction fuel with
  | zero => rfl
  | succ n ih => simp [Result.errorM, resultErrorGo, ih]

/-- Helper lemma: when every nested wrap call diverges, the argument pass of
`Result.error` diverges as soon as the argument list holds an `Exception`,
and otherwise appends nothing (the `Result` arguments are only asserted). -/
theorem resultErrorGo_none_wrap (causes acc : List ErrItem) :
    resultErrorGo (fun _ => Option.none) causes acc =
      (if causes.any (fun c => match c with | ErrItem.exc _ => true | _ => false)
       then Option.none else some acc) := by
  induction causes generalizing acc with
  | nil => simp [resultErrorGo]
  | cons c rest ih =>
      cases c with
      | exc e => simp [resultErrorGo]
      | res o er => simpa [resultErrorGo] using ih acc

/-- C4: the claim says `Result.error(...causes)` terminates and wraps every
`Exception` cause into a singleton error-Result while keeping every
error-tagged `Result` cause, losing nothing. The code does neither: for an
`Exception` argument the recursion `errors_.append(Result.error(maybe_err))`
reinvokes `Result.error` on the same argument and never terminates (it raises
`RecursionError` at every recursion budget), and a `Result` argument only
passes the `isinstance` assertion without ever being appended, so the returned
error list is empty — the cause is lost. -/
theorem result_error_C4_code_bug :
    (∀ fuel e, Result.errorM fuel [ErrItem.exc e] = Option.none) ∧
    (∀ fuel r, Result.errorM (fuel + 1) [ErrItem.ofRes r]
        = some (Result.initError (some []))) := by
  constructor
  · exact errorM_exc_none
  · intro fuel r
    simp [Result.errorM, resultErrorGo, ErrItem.ofRes]

/-- C1: the claim says every exception raised while reading a candidate file
is caught, wrapped, appended to the accumulator, and the search continues, so
that no source-internal exception escapes the file-based strategy. In the code
the `except` handler's wrapping call `Result.error(e)` itself recurses forever
and raises `RecursionError` outside the `try`, so the strategy raises an
internal exception (`Option.none`) instead of accumulating: here on a lookup
whose candidate files are all missing (`FileNotFoundError` on every read), at
every recursion budget. -/
theorem find_in_files_C1_code_bug (fuel : Nat) :
    find_in_files fuel "/cwd" "app" "server" "PORT" "/home" toml_file_name
      (fun _ => Except.error ⟨"FileNotFoundError: [Errno 2] No such file or directory"⟩)
      = Option.none := by
  simp [find_in_files, candidate_paths, findLoop, errorM_exc_none]

/-- C2: when the first priority entry's adapter hands back an error-tagged
Result, `get_config` raises `ConfigItemNotFound` built from that single
adapter's accumulated error list, and the outcome is the same for any other
adapter table that agrees on that first entry — later priority entries are
never invoked, even if their adapter would have succeeded. -/
theorem get_config_C2_short_circuit (d d' : Source → Option PyResult)
    (p : Source) (rest : List Source) (es : List ErrItem)
    (h : d p = some (Result.initError (some es)))
    (h' : d' p = d p) :
    get_config d (some (p :: rest)) = GetConfigOutcome.raisedNotFound (cinfMessage es) ∧
    get_config d' (some (p :: rest)) = GetConfigOutcome.raisedNotFound (cinfMessage es) := by
  rw [h] at h'
  constructor <;>
    simp [get_config, get_config_loop, h, h', Result.initError,
      PyResult.status_and_value, ConfigItemNotFound_init, SVal.ofErr]

/-- Witness for C2: the env adapter fails (error-tagged Result) while the
dotenv adapter, next in priority, would have returned a truthy ok-Result;
`get_config` still raises `ConfigItemNotFound`. -/
theorem get_config_C2_short_circuit_witness :
    get_config (fun s => match s with
        | Source.envVariable =>
            some (Result.initError (some [ErrItem.exc ⟨"KeyError: APP_SEC_ITEM"⟩]))
        | _ => some (Result.mkOk (Val.str "value from a later source")))
      (some [Source.envVariable, Source.dotenvFile])
      = GetConfigOutcome.raisedNotFound (cinfMessage [ErrItem.exc ⟨"KeyError: APP_SEC_ITEM"⟩]) :=
  (get_config_C2_short_circuit
    (fun s => match s with
      | Source.envVariable =>
          some (Result.initError (some [ErrItem.exc ⟨"KeyError: APP_SEC_ITEM"⟩]))
      | _ => some (Result.mkOk (Val.str "value from a later source")))
    (fun s => match s with
      | Source.envVariable =>
          some (Result.initError (some [ErrItem.exc ⟨"KeyError: APP_SEC_ITEM"⟩]))
      | _ => some (Result.mkOk (Val.str "value from a later source")))
    Source.envVariable [Source.dotenvFile]
    [ErrItem.exc ⟨"KeyError: APP_SEC_ITEM"⟩] rfl rfl).1

/-- C10: passing the empty list as `priority` behaves exactly like omitting
the argument (`None`): `if not priority` replaces both by the default order
`['env variable', '.env file', 'config file']`. -/
theorem get_config_C10_empty_priority (d : Source → Option PyResult) :
    get_config d (some []) = get_config d Option.none ∧
    get_config d Option.none = get_config_loop d defaultPriority :=
  ⟨rfl, rfl⟩

/-- Counterexample to C3 as stated: the environment variable `APP_SEC_ITEM`
exists with value `""` and `'env variable'` is the only priority entry, yet
`get_config` does not return `""` — the empty string is falsy, so
`status_and_value` reports `('error', None)` and the `ConfigItemNotFound`
constructor raises `TypeError` iterating over `None`. -/
theorem get_config_C3_counterexample :
    get_config (fun s => match s with
        | Source.envVariable => some (get_config_from_env
            (fun n => if n = "APP_SEC_ITEM" then some "" else Option.none)
            "app" "sec" "item")
        | _ => Option.none)
      (some [Source.envVariable])
      = GetConfigOutcome.raisedTypeError ∧
    GetConfigOutcome.raisedTypeError
      ≠ GetConfigOutcome.returned (SVal.payload (Val.str "")) := by
  constructor
  · rfl
  · intro h
    cases h

/-- C3 amended: if the environment variable named
`UPPERCASE(application)_UPPERCASE(section)_UPPERCASE(item)` exists with a
NON-EMPTY value and `'env variable'` is the first (or only) priority entry,
`get_config` returns exactly that string value; the empty-string case instead
raises `TypeError` (see the counterexample). -/
theorem get_config_C3_amended (env : String → Option String)
    (application sect item : String) (dA tA : Option PyResult)
    (rest : List Source) (v : String)
    (hv : env (env_variable_name application sect item) = some v)
    (hne : v ≠ "") :
    get_config (fun s => match s with
        | Source.envVariable => some (get_config_from_env env application sect item)
        | Source.dotenvFile => dA
        | Source.configFile => tA)
      (some (Source.envVariable :: rest))
      = GetConfigOutcome.returned (SVal.payload (Val.str v)) := by
  simp [get_config, get_config_loop, get_config_from_env, hv, Result.initOk,
    PyResult.status_and_value, Val.truthy, hne]

/-- Witness for the amended C3: environment `{MYAPP_SERVER_PORT ↦ "8080"}`,
priority `['env variable']`; the call returns `"8080"`. -/
theorem get_config_C3_amended_witness :
    get_config (fun s => match s with
        | Source.envVariable => some (get_config_from_env
            (fun n => if n = "MYAPP_SERVER_PORT" then some "8080" else Option.none)
            "myapp" "server" "port")
        | Source.dotenvFile => Option.none
        | Source.configFile => Option.none)
      (some [Source.envVariable])
      = GetConfigOutcome.returned (SVal.payload (Val.str "8080")) :=
  get_config_C3_amended
    (fun n => if n = "MYAPP_SERVER_PORT" then some "8080" else Option.none)
    "myapp" "server" "port" Option.none Option.none [] "8080"
    (by rfl) (by decide)

/-- C9: when the first-consulted adapter hands back an ok-tagged Result whose
payload is falsy (empty string, zero, empty mapping), `get_config` neither
returns the payload nor raises `ConfigItemNotFound` cleanly:
`status_and_value` reports `('error', None)` (the `__err` field of an
ok-constructed Result is `None`), and `ConfigItemNotFound.__init__` then
raises `TypeError` iterating over that `None` cause list. -/
theorem get_config_C9_falsy_ok (d : Source → Option PyResult) (p : Source)
    (rest : List Source) (v : Val)
    (hd : d p = some (Result.initOk (some v)))
    (hv : v.truthy = false) :
    (Result.initOk (some v)).status_and_value = (Status.error, SVal.pyNone) ∧
    ConfigItemNotFound_init (Result.initOk (some v)) = CinfInit.typeError ∧
    get_config d (some (p :: rest)) = GetConfigOutcome.raisedTypeError := by
  refine ⟨?_, ?_, ?_⟩ <;>
    simp [get_config, get_config_loop, hd, Result.initOk,
      PyResult.status_and_value, hv, ConfigItemNotFound_init, SVal.ofErr]

/-- Witness for C9: the first adapter returns `Result.ok("")`; the call ends
in `TypeError`, not in the payload `""` and not in `ConfigItemNotFound`. -/
theorem get_config_C9_falsy_ok_witness :
    (Result.initOk (some (Val.str ""))).status_and_value = (Status.error, SVal.pyNone) ∧
    ConfigItemNotFound_init (Result.initOk (some (Val.str ""))) = CinfInit.typeError ∧
    get_config (fun _ => some (Result.initOk (some (Val.str ""))))
      (some [Source.envVariable]) = GetConfigOutcome.raisedTypeError :=
  get_config_C9_falsy_ok (fun _ => some (Result.initOk (some (Val.str ""))))
    Source.envVariable [] (Val.str "") rfl rfl

/-- Counterexample to C5 as stated: `Result.ok("")` is a success-tagged
Result, but `status_and_value` reports `('error', None)` — not
`('ok', "")` — because the branch tests the truthiness of the payload rather
than the construction tag. -/
theorem status_and_value_C5_counterexample :
    (Result.mkOk (Val.str "")).status_and_value = (Status.error, SVal.pyNone) ∧
    (Result.mkOk (Val.str "")).status_and_value
      ≠ (Status.ok, SVal.payload (Val.str "")) := by
  constructor
  · rfl
  · intro h
    simp [Result.mkOk, Result.initOk, PyResult.status_and_value, Val.truthy, SVal.ofErr] at h

/-- C5 amended: `status_and_value` returns `('ok', payload)` for a
success-tagged Result exactly when the payload is truthy; for a falsy payload
it returns `('error', None)`; for an error-tagged Result it returns
`('error', errorList)` as the claim says. -/
theorem status_and_value_C5_amended (v : Val) (es : List ErrItem) :
    (Result.initOk (some v)).status_and_value
        = (if v.truthy then (Status.ok, SVal.payload v)
           else (Status.error, SVal.pyNone)) ∧
    (Result.initError (some es)).status_and_value = (Status.error, SVal.errors es) := by
  constructor
  · cases h : v.truthy <;>
      simp [Result.initOk, PyResult.status_and_value, h, SVal.ofErr]
  · simp [Result.initError, PyResult.status_and_value, SVal.ofErr]

/-- Counterexample to C6 as stated: when both candidate files read
successfully but neither contains the requested key, `__find_in_files`
returns an error-tagged Result whose accumulated cause list is EMPTY — so not
every adapter-produced error-Result carries an underlying cause (such a
Result is not even `is_err`, since an empty Python list is falsy). -/
theorem result_C6_counterexample :
    find_in_files 0 "/cwd" "app" "server" "PORT" "/home" toml_file_name
      (fun _ => Except.ok [("OTHER", Val.str "x")])
      = some (Result.initError (some [])) ∧
    (Result.initError (some ([] : List ErrItem))).is_err = false :=
  ⟨rfl, rfl⟩

/-- C6 amended: a Result never holds both a payload and errors (an
ok-construction leaves `__err = None`, an error-construction leaves
`__ok = None`), and an error-tagged Result produced by the environment-variable
adapter carries at least one cause; the file-based strategy, however, may
return an error-tagged Result with an empty cause list (see the
counterexample). -/
theorem result_C6_amended (c : Option Val) (cs : Option (List ErrItem))
    (env : String → Option String) (application sect item : String)
    (l : List ErrItem) :
    (Result.initOk c).err = Option.none ∧
    (Result.initError cs).ok = Option.none ∧
    ((get_config_from_env env application sect item).err = some l → l ≠ []) := by
  refine ⟨rfl, rfl, ?_⟩
  intro h
  unfold get_config_from_env at h
  cases henv : env (env_variable_name application sect item) <;> rw [henv] at h
  · simp [Result.initError] at h
    subst h
    simp
  · simp [Result.initOk] at h

/-- Witness for the amended C6: a concrete ok-Result and error-Result each
leave the other field `None`, and the env adapter run on an empty environment
produces the singleton cause list `[KeyError]`, which is nonempty. -/
theorem result_C6_amended_witness :
    (Result.initOk (some (Val.str "x"))).err = Option.none ∧
    (Result.initError (some [])).ok = Option.none ∧
    ([ErrItem.exc ⟨"KeyError: APP_SEC_ITEM"⟩] : List ErrItem) ≠ [] := by
  refine ⟨?_, ?_, ?_⟩
  · exact (result_C6_amended (some (Val.str "x")) (some []) (fun _ => Option.none)
      "app" "sec" "item" []).1
  · exact (result_C6_amended (some (Val.str "x")) (some []) (fun _ => Option.none)
      "app" "sec" "item" []).2.1
  · exact (result_C6_amended (some (Val.str "x")) (some []) (fun _ => Option.none)
      "app" "sec" "item" [ErrItem.exc ⟨"KeyError: APP_SEC_ITEM"⟩]).2.2 (by rfl)

/-- Helper lemma: the candidate loop of `__find_in_files` only consults the
reading callback at the candidate paths, so two filesystems that agree on
those paths drive it to the same result. -/
theorem findLoop_congr (fuel : Nat) (read read' : String → Except Exc PyMap)
    (item : String) (paths : List String) (errors : List ErrItem)
    (h : ∀ p ∈ paths, read p = read' p) :
    findLoop fuel read item paths errors = findLoop fuel read' item paths errors := by
  induction paths generalizing errors with
  | nil => rfl
  | cons p rest ih =>
      have hp : read p = read' p := h p (List.mem_cons_self p rest)
      have hrest : ∀ q ∈ rest, read q = read' q :=
        fun q hq => h q (List.mem_cons_of_mem p hq)
      simp only [findLoop, ← hp]
      cases hr : read p with
      | ok data =>
          cases hl : List.lookup item data with
          | some v => simp [hl]
          | none => simp [hl, ih _ hrest]
      | error e =>
          cases he : Result.errorM fuel [ErrItem.exc e] with
          | none => simp [he]
          | some r => simp [he, ih _ hrest]

/-- Helper lemma: `__find_in_files` depends on the filesystem only at its two
candidate paths. -/
theorem find_in_files_congr (fuel : Nat) (cwd application sect item home : String)
    (mk : String → String → String → String)
    (read read' : String → Except Exc PyMap)
    (h : ∀ p ∈ candidate_paths cwd home application (mk application sect item),
        read p = read' p) :
    find_in_files fuel cwd application sect item home mk read
      = find_in_files fuel cwd application sect item home mk read' :=
  findLoop_congr fuel read read' item _ [] h

/-- Counterexample to C7 as stated: the per-section file `.env.sec` contains
`ITEM` (with the empty-string value, as a dotenv line `ITEM=` yields), so the
per-section attempt yields the item as a success-tagged Result — yet the
adapter does NOT return that value: `is_ok` tests the truthiness of the
payload, the falsy `""` sends it to the second phase, and the value from the
generic `.env` file is returned instead. -/
theorem dotenv_C7_counterexample :
    find_in_files 0 "/cwd" "app" "sec" "ITEM" "/home" dotenv_section_file_name
      (fun p => if p = "/cwd/config/app/.env.sec" then Except.ok [("ITEM", Val.str "")]
        else if p = "/cwd/config/app/.env" then Except.ok [("ITEM", Val.str "generic")]
        else Except.ok [])
      = some (Result.mkOk (Val.str "")) ∧
    get_config_from_dotenv 0 "/cwd" "app" "sec" "ITEM" "/home"
      (fun p => if p = "/cwd/config/app/.env.sec" then Except.ok [("ITEM", Val.str "")]
        else if p = "/cwd/config/app/.env" then Except.ok [("ITEM", Val.str "generic")]
        else Except.ok [])
      = some (Result.mkOk (Val.str "generic")) :=
  ⟨rfl, rfl⟩

/-- C7 amended: the dotenv adapter first attempts the per-section file
`.env.{section}`; it performs the second, generic `.env` attempt if and only
if the first attempt's Result does not hold a TRUTHY payload (`is_ok`).
Whenever the per-section attempt yields the item with a truthy value, that
Result is returned and the generic file is never consulted: the outcome is
the same under any filesystem that agrees with the given one on the two
per-section candidate paths, whatever it holds at the generic `.env` paths. -/
theorem dotenv_C7_amended (fuel : Nat) (cwd application sect item home : String)
    (read read' : String → Except Exc PyMap) (r : PyResult)
    (hagree : ∀ p ∈ candidate_paths cwd home application
        (dotenv_section_file_name application sect item), read p = read' p)
    (h1 : find_in_files fuel cwd application sect item home
        dotenv_section_file_name read = some r)
    (hok : r.is_ok = true) :
    get_config_from_dotenv fuel cwd application sect item home read = some r ∧
    get_config_from_dotenv fuel cwd application sect item home read' = some r := by
  have h1' : find_in_files fuel cwd application sect item home
      dotenv_section_file_name read' = some r := by
    rw [← find_in_files_congr fuel cwd application sect item home
      dotenv_section_file_name read read' hagree]
    exact h1
  constructor
  · simp [get_config_from_dotenv, h1, hok]
  · simp [get_config_from_dotenv, h1', hok]

/-- Witness for the amended C7: `.env.sec` holds `ITEM=value`; the adapter
returns `"value"` both under the real filesystem and under one whose generic
`.env` files hold a conflicting entry — the generic file is not consulted. -/
theorem dotenv_C7_amended_witness :
    get_config_from_dotenv 0 "/cwd" "app" "sec" "ITEM" "/home"
      (fun p => if p = "/cwd/config/app/.env.sec" then Except.ok [("ITEM", Val.str "value")]
        else Except.ok [])
      = some (Result.mkOk (Val.str "value")) ∧
    get_config_from_dotenv 0 "/cwd" "app" "sec" "ITEM" "/home"
      (fun p => if p = "/cwd/config/app/.env.sec" then Except.ok [("ITEM", Val.str "value")]
        else if p = "/cwd/config/app/.env" then Except.ok [("ITEM", Val.str "conflicting")]
        else Except.ok [])
      = some (Result.mkOk (Val.str "value")) :=
  dotenv_C7_amended 0 "/cwd" "app" "sec" "ITEM" "/home"
    (fun p => if p = "/cwd/config/app/.env.sec" then Except.ok [("ITEM", Val.str "value")]
      else Except.ok [])
    (fun p => if p = "/cwd/config/app/.env.sec" then Except.ok [("ITEM", Val.str "value")]
      else if p = "/cwd/config/app/.env" then Except.ok [("ITEM", Val.str "conflicting")]
      else Except.ok [])
    (Result.mkOk (Val.str "value"))
    (by
      intro p hp
      simp only [candidate_paths, List.mem_cons, List.not_mem_nil, or_false] at hp
      rcases hp with rfl | rfl <;> rfl)
    rfl rfl

/-- C8: when the cwd-relative candidate file and the home-relative candidate
file are both readable and both contain the requested item, the file-based
strategy returns the value from the cwd-relative file — the cwd candidate is
visited first and the search returns on its hit. -/
theorem find_in_files_C8_cwd_precedence (fuel : Nat)
    (cwd application sect item home : String)
    (mk : String → String → String → String)
    (read : String → Except Exc PyMap) (m1 m2 : PyMap) (v1 v2 : Val)
    (h1 : read (pathJoin (pathJoin (pathJoin cwd "config") application)
        (mk application sect item)) = Except.ok m1)
    (hv1 : m1.lookup item = some v1)
    (_h2 : read (pathJoin (pathJoin (pathJoin home "config") application)
        (mk application sect item)) = Except.ok m2)
    (_hv2 : m2.lookup item = some v2) :
    find_in_files fuel cwd application sect item home mk read
      = some (Result.mkOk v1) := by
  simp [find_in_files, candidate_paths, findLoop, h1, hv1]

/-- Witness for C8: `/cwd/config/app/server.toml` holds `PORT = "8080"`,
`/home/config/app/server.toml` holds `PORT = "9090"`; the strategy returns
`"8080"`. -/
theorem find_in_files_C8_cwd_precedence_witness :
    find_in_files 0 "/cwd" "app" "server" "PORT" "/home" toml_file_name
      (fun p => if p = "/cwd/config/app/server.toml"
        then Except.ok [("PORT", Val.str "8080")]
        else Except.ok [("PORT", Val.str "9090")])
      = some (Result.mkOk (Val.str "8080")) :=
  find_in_files_C8_cwd_precedence 0 "/cwd" "app" "server" "PORT" "/home"
    toml_file_name
    (fun p => if p = "/cwd/config/app/server.toml"
      then Except.ok [("PORT", Val.str "8080")]
      else Except.ok [("PORT", Val.str "9090")])
    [("PORT", Val.str "8080")] [("PORT", Val.str "9090")]
    (Val.str "8080") (Val.str "9090") rfl rfl rfl rfl

end Cfg
